import Mathlib

/-
Verification of the playback-synchronization and crop-tool logic of
src/src/components/Editor/CropTool.tsx (components CropTool and Preview).

Times, dimensions and volumes are JavaScript numbers in the source; they are
embedded as rationals (ℚ).  Element `type` is the source's string tag.  The
physical HTMLAudio/HTMLVideo players are embedded as explicit state records,
and each React effect of the source is embedded as a pure function from its
inputs to the state writes it performs.
-/

/-- A crop rectangle in percent units, as the source passes around
`{ x, y, width, height }`. -/
structure CropRect where
  x : ℚ
  y : ℚ
  width : ℚ
  height : ℚ
deriving DecidableEq, Repr

/-- The type-specific `content` payload of a timeline element.  The source
reads `content.src`, `content.volume`, `content.muted` and `content.crop`;
fields absent for a given element type stay `none`. -/
structure ElementContent where
  src : String
  volume : Option ℚ := none
  muted : Option Bool := none
  crop : Option CropRect := none
deriving DecidableEq, Repr

/-- A timeline element as used by CropTool.tsx: `id`, string `type`
("video" | "audio" | "image" | "text"), the active window `[start, end]`
in seconds, and the `content` payload. -/
structure TimelineElement where
  id : String
  type : String
  start : ℚ
  «end» : ℚ
  content : ElementContent
deriving DecidableEq, Repr

/-- Source lines 609-614: the predicate of the `elements.find` call that picks
the displayed video (`el.type === "video" && currentTime >= el.start &&
currentTime <= el.end`). -/
def isVideoActiveAt (el : TimelineElement) (t : ℚ) : Bool :=
  decide (el.type = "video") && decide (el.start ≤ t) && decide (t ≤ el.«end»)

/-- Source lines 352-357: the predicate of the `elements.filter` call that
collects the active audio elements. -/
def isAudioActiveAt (el : TimelineElement) (t : ℚ) : Bool :=
  decide (el.type = "audio") && decide (el.start ≤ t) && decide (t ≤ el.«end»)

/-- Source lines 609-614: `const videoElement = elements.find(...)` — the
Active-Element Selector's video half. -/
def selectVideo (els : List TimelineElement) (t : ℚ) : Option TimelineElement :=
  els.find? (fun el => isVideoActiveAt el t)

/-- Source lines 352-357: `const activeAudioElements = elements.filter(...)` —
the Active-Element Selector's audio half. -/
def selectAudios (els : List TimelineElement) (t : ℚ) : List TimelineElement :=
  els.filter (fun el => isAudioActiveAt el t)

/-- The state of one physical audio player (`new Audio(src)`) as the source
sets it up: source URL, playhead, volume, mute flag and whether `play()` has
been called successfully. -/
structure AudioPlayer where
  src : String
  currentTime : ℚ
  volume : ℚ
  muted : Bool
  playing : Bool
deriving DecidableEq, Repr

/-- Source lines 363-404: construction of the player for a newly active audio
element.  `engineVolume` is the `volume` React state (0-100).  Line 379 sets
`audioElement.muted = false`; line 380 sets the volume to
`content.volume !== undefined ? content.volume : volume / 100`; lines 383-384
seek to `Math.max(0, currentTime - audio.start)`; lines 389-402 call `play()`
when the transport is playing, and a rejected play promise is only logged
(`playFailed` embeds that rejection), leaving the session in place. -/
def createAudioSession (aud : TimelineElement) (ct engineVolume : ℚ)
    (isPlaying playFailed : Bool) : AudioPlayer :=
  { src := aud.content.src
    currentTime := max 0 (ct - aud.start)
    volume := aud.content.volume.getD (engineVolume / 100)
    muted := false
    playing := isPlaying && !playFailed }

/-- Source lines 362-405: the creation half of the reconciliation pass — for
each active audio element with no session in `audioRefs.current`, build one
and insert it.  `playFails` tells, per element id, whether that player's
`play()` call is rejected (autoplay policy); the insertion at line 386
happens before the `play()` call either way. -/
def reconcileCreate (pool : List (String × AudioPlayer)) (actives : List TimelineElement)
    (ct engineVolume : ℚ) (isPlaying : Bool) (playFails : String → Bool) :
    List (String × AudioPlayer) :=
  actives.foldl
    (fun acc aud =>
      if acc.any (fun p => decide (p.1 = aud.id)) then acc
      else acc ++ [(aud.id, createAudioSession aud ct engineVolume isPlaying (playFails aud.id))])
    pool

/-- Source lines 419-436: the audio time-reconciliation effect.  Returns the
forced-seek target for one active session, or `none` when no seek happens:
the outer guard is `Math.abs(currentTime - lastTimeRef.current) > 0.1`, the
inner guard `Math.abs(audioElement.currentTime - audioLocalTime) > 0.2`. -/
def audioTimeSyncTick (ct lastTick : ℚ) (aud : TimelineElement) (playerPos : ℚ) : Option ℚ :=
  if |ct - lastTick| > 1/10 then
    if |playerPos - max 0 (ct - aud.start)| > 1/5 then some (max 0 (ct - aud.start))
    else none
  else none

/-- Source lines 407-415 (teardown) : sessions whose id is not in the active
set are paused and deleted.  Returns (the surviving pool, the removed sessions
after their `pause()` call). -/
def cleanupPool (pool : List (String × AudioPlayer)) (actives : List TimelineElement) :
    List (String × AudioPlayer) × List (String × AudioPlayer) :=
  (pool.filter (fun p => actives.any (fun a => decide (a.id = p.1))),
   (pool.filter (fun p => !(actives.any (fun a => decide (a.id = p.1))))).map
     (fun p => (p.1, { p.2 with playing := false })))

/-- Source lines 504-511 (unmount cleanup): every live session is paused and
the pool is reset to `{}`.  Returns (the emptied pool, the released sessions
after their `pause()` call). -/
def unmountCleanup (pool : List (String × AudioPlayer)) :
    List (String × AudioPlayer) × List (String × AudioPlayer) :=
  ([], pool.map (fun p => (p.1, { p.2 with playing := false })))

/-- The video player's sync-relevant state: its reported `currentTime` and the
`timeUpdateBlocker` ref of line 343. -/
structure VideoSyncState where
  playerTime : ℚ
  blocker : Bool
deriving DecidableEq, Repr

/-- Source lines 583-597: the continuous video time-sync effect.  When
`Math.abs(videoElement.currentTime - currentTime) > 0.2` the player is forced
to the clock time with the blocker raised (reset 50ms later by the
`setTimeout`, embedded as `blockerTimeout`); otherwise nothing happens. -/
def videoTimeSync (s : VideoSyncState) (clockTime : ℚ) : VideoSyncState :=
  if |s.playerTime - clockTime| > 1/5 then { playerTime := clockTime, blocker := true }
  else s

/-- Source lines 593-595: the `setTimeout(..., 50)` callback that lowers the
blocker after the ~50ms suppression window. -/
def blockerTimeout (s : VideoSyncState) : VideoSyncState :=
  { s with blocker := false }

/-- Source lines 518-521: the player's `timeupdate` handler — the report is
forwarded to the clock (`onTimeUpdate`) only while the blocker is down. -/
def handleTimeUpdate (s : VideoSyncState) : Option ℚ :=
  if s.blocker then none else some s.playerTime

/-- A clock-mutation request issued to the parent Timeline Clock
(`onRestart`, `onPlay`, `onPause`, `onTimeUpdate(t)`). -/
inductive ClockAction where
  | restart
  | play
  | pause
  | timeUpdate (t : ℚ)
deriving DecidableEq, Repr

/-- Source lines 616-628: `handlePlay` — when `videoEnded ||
currentTime >= duration - 0.1` it first runs `handleRestart` (which clears
`videoEnded` and issues `onRestart`), then issues `onPlay`.  Returns the new
`videoEnded` flag and the clock requests in issue order. -/
def handlePlay (videoEnded : Bool) (ct dur : ℚ) : Bool × List ClockAction :=
  if videoEnded || decide (ct ≥ dur - 1/10) then
    (false, [ClockAction.restart, ClockAction.play])
  else (videoEnded, [ClockAction.play])

/-- What the ended-reset inside the play/pause effect does: the new
`videoEnded` flag, the forced clock write (`onTimeUpdate`), the forced player
write (`videoElement.currentTime`), and whether `timeUpdateBlocker` is raised
while those writes run. -/
structure ResetOutcome where
  videoEnded : Bool
  clockWrite : Option ℚ
  playerWrite : Option ℚ
  blockerDuringWrites : Bool
deriving DecidableEq, Repr

/-- Source lines 554-564: the reset branch of the play/pause effect once
`isPlaying` is true.  If the video had ended, `videoEnded` is cleared and, when
additionally `currentTime >= duration - 0.1`, the blocker is raised,
`onTimeUpdate(0)` is issued and the player is seeked to 0. -/
def playResetEffect (videoEnded : Bool) (ct dur : ℚ) : ResetOutcome :=
  if videoEnded then
    if ct ≥ dur - 1/10 then
      { videoEnded := false, clockWrite := some 0, playerWrite := some 0,
        blockerDuringWrites := true }
    else
      { videoEnded := false, clockWrite := none, playerWrite := none,
        blockerDuringWrites := false }
  else
    { videoEnded := videoEnded, clockWrite := none, playerWrite := none,
      blockerDuringWrites := false }

/-- The CropTool component's React state: the four crop sliders and the
selected aspect-ratio option id. -/
structure CropToolState where
  cropX : ℚ
  cropY : ℚ
  cropWidth : ℚ
  cropHeight : ℚ
  selectedAspectRatioId : Option String
deriving DecidableEq, Repr

/-- Source lines 32-42: the `aspectRatioOptions` table, as (id, value) pairs
where `none` is the freeform entry's `null`. -/
def aspectRatioOptions : List (String × Option ℚ) :=
  [("freeform", none), ("1:1", some 1), ("16:9", some (16/9)), ("9:16", some (9/16)),
   ("5:4", some (5/4)), ("4:5", some (4/5)), ("4:3", some (4/3)), ("3:4", some (3/4)),
   ("3:2", some (3/2))]

/-- `aspectRatioOptions.find(option => option.id === rid)`, shared by the
slider handlers and `handleAspectRatioChange`. -/
def findRatioOption (rid : String) : Option (String × Option ℚ) :=
  aspectRatioOptions.find? (fun o => decide (o.1 = rid))

/-- Source lines 239-248: the width slider's `onValueChange` — set the width,
and when a non-freeform ratio with a truthy value is selected, set the height
to `value / ratio.value` with no clamping. -/
def onWidthChange (s : CropToolState) (v : ℚ) : CropToolState :=
  let s1 := { s with cropWidth := v }
  match s.selectedAspectRatioId with
  | none => s1
  | some rid =>
    if rid = "freeform" then s1
    else
      match findRatioOption rid with
      | some (_, some r) => if r = 0 then s1 else { s1 with cropHeight := v / r }
      | _ => s1

/-- Source lines 262-270: the height slider's `onValueChange` — set the
height, and when a non-freeform ratio with a truthy value is selected, set the
width to `value * ratio.value` with no clamping. -/
def onHeightChange (s : CropToolState) (v : ℚ) : CropToolState :=
  let s1 := { s with cropHeight := v }
  match s.selectedAspectRatioId with
  | none => s1
  | some rid =>
    if rid = "freeform" then s1
    else
      match findRatioOption rid with
      | some (_, some r) => if r = 0 then s1 else { s1 with cropWidth := v * r }
      | _ => s1

/-- Source lines 132-158: `handleAspectRatioChange` — record the selected id;
for a missing option or freeform keep the dimensions; otherwise recompute
`newHeight = cropWidth / value`, and if that exceeds 100 set height 100 and
width `100 * value` instead. -/
def handleAspectRatioChange (s : CropToolState) (ratioId : String) : CropToolState :=
  let s1 := { s with selectedAspectRatioId := some ratioId }
  match findRatioOption ratioId with
  | none => s1
  | some (_, none) => s1
  | some (_, some r) =>
    if s.cropWidth / r > 100 then { s1 with cropWidth := 100 * r, cropHeight := 100 }
    else { s1 with cropHeight := s.cropWidth / r }

/-- The default full-frame rectangle `{ x: 0, y: 0, width: 100, height: 100 }`
of source line 118. -/
def fullFrameCrop : CropRect := { x := 0, y := 0, width := 100, height := 100 }

/-- Source lines 117-129: `handleResetCrop` (wired to both the X button and
the Cancel button) — zero the position, set width and height to 100, reset the
ratio choice to freeform, and when an element is selected emit
`onCropApply(id, defaultCrop)`.  Returns the new state and the emitted
commit. -/
def handleResetCrop (_s : CropToolState) (selId : Option String) :
    CropToolState × Option (String × CropRect) :=
  let s1 : CropToolState :=
    { cropX := 0, cropY := 0, cropWidth := 100, cropHeight := 100,
      selectedAspectRatioId := some ("freeform") }
  match selId with
  | some id => (s1, some (id, fullFrameCrop))
  | none => (s1, none)

/-- A `toast` call of the sonner library as the source issues it. -/
inductive ToastMsg where
  | error (msg : String)
  | success (msg : String)
deriving DecidableEq, Repr

/-- Source lines 96-114: `handleApplyCrop` — with no selection do nothing; for
a selected element that is neither video nor image show an error toast and
return without applying; otherwise emit `onCropApply(id, crop)` and a success
toast.  Returns (the emitted commit, the toast). -/
def handleApplyCrop (selId : Option String) (selEl : Option TimelineElement)
    (cx cy cw ch : ℚ) : Option (String × CropRect) × Option ToastMsg :=
  match selId, selEl with
  | some id, some el =>
    if decide (el.type ≠ "video") && decide (el.type ≠ "image") then
      (none, some (ToastMsg.error ("Cropping is only available for video and image elements")))
    else
      (some (id, { x := cx, y := cy, width := cw, height := ch }),
       some (ToastMsg.success ("Crop applied successfully")))
  | _, _ => (none, none)

/-- Source lines 75-88: the debounced crop-application effect — 100ms after
any change of the crop state or the selection it emits
`onCropApply(selectedElementId, currentCrop)` whenever `selectedElementId` is
non-null, with no check of the selected element's type. -/
def debouncedCropApply (selId : Option String) (cx cy cw ch : ℚ) :
    Option (String × CropRect) :=
  match selId with
  | some id => some (id, { x := cx, y := cy, width := cw, height := ch })
  | none => none

/-- A sample audio element (explicitly muted in its content) used as concrete
input. -/
def audSample : TimelineElement :=
  { id := "a1", type := "audio", start := 2, «end» := 8,
    content := { src := "song.mp3", volume := none, muted := some true } }

/-- A sample text element used as concrete input. -/
def textSample : TimelineElement :=
  { id := "t1", type := "text", start := 0, «end» := 5,
    content := { src := "" } }

/-- A crop state with the 9:16 ratio locked, used as concrete input. -/
def cropHalf916 : CropToolState :=
  { cropX := 0, cropY := 0, cropWidth := 50, cropHeight := 50,
    selectedAspectRatioId := some ("9:16") }

/-- A crop state with the 16:9 ratio locked, used as concrete input. -/
def cropScenario169 : CropToolState :=
  { cropX := 0, cropY := 0, cropWidth := 50, cropHeight := 50,
    selectedAspectRatioId := some ("16:9") }

/-- A freeform crop state of minimal width, used as concrete input. -/
def cropNarrow : CropToolState :=
  { cropX := 0, cropY := 0, cropWidth := 20, cropHeight := 50,
    selectedAspectRatioId := some ("freeform") }

/- ------------------------------------------------------------------ -/
/- Theorems                                                            -/
/- ------------------------------------------------------------------ -/

/-- `find?` returns the head of the filtered list: the "first in list order"
tie-break. -/
theorem find?_eq_head?_filter {α : Type} (p : α → Bool) (l : List α) :
    l.find? p = (l.filter p).head? := by
  induction l with
  | nil => rfl
  | cons a l ih =>
    cases h : p a with
    | true => simp only [List.find?, List.filter, h, List.head?]
    | false =>
      simp only [List.find?, List.filter, h]
      exact ih

/-- C1: for every element list and current time, the selector's video half is
the first element in list order with type "video" whose closed window contains
the time (hence at most one, and it qualifies), and its audio half is exactly
the set of elements with type "audio" whose window contains the time — no
out-of-window audio element is ever returned.  Both are pure functions of the
element list and the time. -/
theorem C1_active_element_selector (els : List TimelineElement) (t : ℚ) :
    selectVideo els t = (els.filter (fun el => isVideoActiveAt el t)).head? ∧
    (selectVideo els t).all (fun v => isVideoActiveAt v t) = true ∧
    (∀ a, a ∈ selectAudios els t ↔
      a ∈ els ∧ a.type = "audio" ∧ a.start ≤ t ∧ t ≤ a.«end») := by
  refine ⟨find?_eq_head?_filter _ _, ?_, ?_⟩
  · cases h : selectVideo els t with
    | none => rfl
    | some v =>
      have h2 : List.find? (fun el => isVideoActiveAt el t) els = some v := h
      show isVideoActiveAt v t = true
      exact @List.find?_some TimelineElement (fun el => isVideoActiveAt el t) v els h2
  · intro a
    simp only [selectAudios, List.mem_filter, isAudioActiveAt, Bool.and_eq_true,
      decide_eq_true_eq, and_assoc]

/-- C2 counterexample: the claim says a newly created session's mute state is
`engineMuted || content.muted`, but source line 379 sets
`audioElement.muted = false` unconditionally — for `audSample`, whose content
is explicitly muted, the claimed mute state is true while the created player
is unmuted. -/
theorem C2_mute_counterexample :
    ¬ ((createAudioSession audSample 5 100 true false).muted =
        (false || (audSample.content.muted.getD false))) := by
  simp [createAudioSession, audSample]

/-- C2 (amended): for every audio element that becomes active with no session
for its id, the manager creates a player bound to `content.src`, seeks it to
`max(0, currentTime - start)`, sets volume to `content.volume` when defined
and otherwise `engineVolume/100`, sets the mute state to false (unmuted,
regardless of engine mute or `content.muted`), starts it when the transport is
playing, and keeps the session in the pool even when starting fails. -/
theorem C2_audio_session_creation (aud : TimelineElement) (ct engineVolume : ℚ)
    (isPlaying : Bool) (playFails : String → Bool)
    (pool : List (String × AudioPlayer))
    (hnew : pool.any (fun p => decide (p.1 = aud.id)) = false) :
    (createAudioSession aud ct engineVolume isPlaying (playFails aud.id)).src =
      aud.content.src ∧
    (createAudioSession aud ct engineVolume isPlaying (playFails aud.id)).currentTime =
      max 0 (ct - aud.start) ∧
    (createAudioSession aud ct engineVolume isPlaying (playFails aud.id)).volume =
      aud.content.volume.getD (engineVolume / 100) ∧
    (createAudioSession aud ct engineVolume isPlaying (playFails aud.id)).muted = false ∧
    (playFails aud.id = false →
      (createAudioSession aud ct engineVolume isPlaying (playFails aud.id)).playing =
        isPlaying) ∧
    (aud.id, createAudioSession aud ct engineVolume isPlaying (playFails aud.id)) ∈
      reconcileCreate pool [aud] ct engineVolume isPlaying playFails := by
  refine ⟨rfl, rfl, rfl, rfl, ?_, ?_⟩
  · intro h
    simp [createAudioSession, h]
  · simp only [reconcileCreate, List.foldl, hnew, Bool.false_eq_true, if_false]
    exact List.mem_append_right pool (List.mem_singleton.mpr rfl)

/-- C2 witness: the amended creation behaviour at a concrete muted audio
element, empty pool, transport playing, `play()` succeeding. -/
theorem C2_audio_session_creation_witness :
    (createAudioSession audSample 5 100 true false).src = audSample.content.src ∧
    (createAudioSession audSample 5 100 true false).currentTime =
      max 0 (5 - audSample.start) ∧
    (createAudioSession audSample 5 100 true false).volume =
      audSample.content.volume.getD (100 / 100) ∧
    (createAudioSession audSample 5 100 true false).muted = false ∧
    (false = false → (createAudioSession audSample 5 100 true false).playing = true) ∧
    (audSample.id, createAudioSession audSample 5 100 true false) ∈
      reconcileCreate [] [audSample] 5 100 true (fun _ => false) :=
  C2_audio_session_creation audSample 5 100 true (fun _ => false) [] rfl

/-- C3: on a clock tick, an active audio session is force-seeked exactly when
both `|currentTime - lastTick| > 0.1` and the player position differs from
`localTime = max(0, currentTime - start)` by more than `0.2`, and then the
seek target is `localTime`; a tick with an unchanged clock never seeks, so
time-correction is not applied unconditionally on every tick. -/
theorem C3_audio_drift_gate (ct lastTick playerPos : ℚ) (aud : TimelineElement) :
    (∀ target, audioTimeSyncTick ct lastTick aud playerPos = some target ↔
      (|ct - lastTick| > 1/10 ∧ |playerPos - max 0 (ct - aud.start)| > 1/5 ∧
        target = max 0 (ct - aud.start))) ∧
    audioTimeSyncTick ct ct aud playerPos = none := by
  constructor
  · intro target
    simp only [audioTimeSyncTick]
    split_ifs with h1 h2
    · rw [Option.some_inj]
      exact ⟨fun ht => ⟨h1, h2, ht.symm⟩, fun ht => ht.2.2.symm⟩
    · exact ⟨fun ht => ht.elim, fun ht => absurd ht.2.1 h2⟩
    · exact ⟨fun ht => ht.elim, fun ht => absurd ht.1 h1⟩
  · unfold audioTimeSyncTick
    rw [if_neg]
    rw [sub_self, abs_zero]
    norm_num

/-- C4: whenever the bound video player's time differs from the clock time by
more than 0.2s, the sync effect performs one corrective seek to the clock time
with the suppression blocker raised, the player's own time-report is not
forwarded while the blocker is up, a second sync pass performs no further
seek, and after the 50ms timeout lowers the blocker the report flows again;
with a difference of at most 0.2s no forced seek occurs. -/
theorem C4_video_drift_correction (s : VideoSyncState) (clockTime : ℚ) :
    ((|s.playerTime - clockTime| > 1/5) →
      videoTimeSync s clockTime = { playerTime := clockTime, blocker := true } ∧
      handleTimeUpdate (videoTimeSync s clockTime) = none ∧
      videoTimeSync (videoTimeSync s clockTime) clockTime = videoTimeSync s clockTime ∧
      handleTimeUpdate (blockerTimeout (videoTimeSync s clockTime)) = some clockTime) ∧
    ((|s.playerTime - clockTime| ≤ 1/5) → videoTimeSync s clockTime = s) := by
  constructor
  · intro h
    have hv : videoTimeSync s clockTime = { playerTime := clockTime, blocker := true } := by
      unfold videoTimeSync
      rw [if_pos h]
    refine ⟨hv, ?_, ?_, ?_⟩
    · rw [hv]
      rfl
    · rw [hv]
      unfold videoTimeSync
      split <;> rfl
    · rw [hv]
      rfl
  · intro h
    unfold videoTimeSync
    rw [if_neg (not_lt.mpr h)]


/-- Evaluation helper: a width edit under a selected, non-freeform, found
ratio with a truthy value sets the width to the edit and the height to
`v / r`. -/
theorem onWidthChange_locked (s : CropToolState) (v r : ℚ) (rid : String)
    (hsel : s.selectedAspectRatioId = some rid)
    (hfree : ¬ (rid = "freeform"))
    (hfind : findRatioOption rid = some (rid, some r))
    (hr : ¬ (r = 0)) :
    onWidthChange s v = { s with cropWidth := v, cropHeight := v / r } := by
  unfold onWidthChange
  rw [hsel]
  simp only [hfree, if_false, hfind, hr]

/-- Evaluation helper: a height edit under a selected, non-freeform, found
ratio with a truthy value sets the height to the edit and the width to
`v * r`. -/
theorem onHeightChange_locked (s : CropToolState) (v r : ℚ) (rid : String)
    (hsel : s.selectedAspectRatioId = some rid)
    (hfree : ¬ (rid = "freeform"))
    (hfind : findRatioOption rid = some (rid, some r))
    (hr : ¬ (r = 0)) :
    onHeightChange s v = { s with cropHeight := v, cropWidth := v * r } := by
  unfold onHeightChange
  rw [hsel]
  simp only [hfree, if_false, hfind, hr]

/-- C5 counterexample: the claim says the dimension derived under a locked
ratio is clamped to [20,100]; editing the width to 100 under the locked 9:16
ratio makes the code set the height to `100 / (9/16) = 1600/9 ≈ 177.8`,
which is not clamped and exceeds 100. -/
theorem C5_clamp_counterexample :
    (onWidthChange cropHalf916 100).cropHeight = 1600/9 ∧
    ¬ ((onWidthChange cropHalf916 100).cropHeight ≤ 100) := by
  have hw := onWidthChange_locked cropHalf916 100 (9/16) ("9:16") rfl (by decide) rfl
    (by norm_num)
  rw [hw]
  constructor
  · show (100 : ℚ) / (9/16) = 1600/9
    norm_num
  · show ¬ ((100 : ℚ) / (9/16) ≤ 100)
    norm_num

/-- C5 (amended): after a width edit to `v` under a locked ratio `r` the code
sets the height to `v / r`, and after a height edit to `v` it sets the width
to `v * r`, in both cases with no clamping of the derived dimension; the ratio
`width/height = r` holds exactly after a width edit, but the derived dimension
is not constrained to [20,100]. -/
theorem C5_ratio_edit (s : CropToolState) (v r : ℚ) (rid : String)
    (hsel : s.selectedAspectRatioId = some rid)
    (hfree : ¬ (rid = "freeform"))
    (hfind : findRatioOption rid = some (rid, some r))
    (hr : ¬ (r = 0)) :
    (onWidthChange s v).cropWidth = v ∧
    (onWidthChange s v).cropHeight = v / r ∧
    (onHeightChange s v).cropHeight = v ∧
    (onHeightChange s v).cropWidth = v * r ∧
    (¬ (v = 0) → (onWidthChange s v).cropWidth / (onWidthChange s v).cropHeight = r) := by
  have hw := onWidthChange_locked s v r rid hsel hfree hfind hr
  have hh := onHeightChange_locked s v r rid hsel hfree hfind hr
  refine ⟨by rw [hw], by rw [hw], by rw [hh], by rw [hh], ?_⟩
  intro hv
  rw [hw]
  show v / (v / r) = r
  rw [div_div_eq_mul_div, mul_comm, mul_div_assoc, div_self hv, mul_one]

/-- C5 witness: the spec's own scenario — ratio 16:9 locked, width edited to
80 — instantiated on the amended theorem: the height becomes 45, the width 80,
and the ratio is preserved exactly. -/
theorem C5_ratio_edit_witness :
    (onWidthChange cropScenario169 80).cropWidth = 80 ∧
    (onWidthChange cropScenario169 80).cropHeight = 80 / (16/9) ∧
    (onHeightChange cropScenario169 80).cropHeight = 80 ∧
    (onHeightChange cropScenario169 80).cropWidth = 80 * (16/9) ∧
    (¬ ((80 : ℚ) = 0) →
      (onWidthChange cropScenario169 80).cropWidth /
        (onWidthChange cropScenario169 80).cropHeight = 16/9) :=
  C5_ratio_edit cropScenario169 80 (16/9) ("16:9") rfl (by decide) rfl (by norm_num)

/-- Evaluation helper: `handleAspectRatioChange` for a found ratio id with a
non-null value reduces to the branch on `cropWidth / r > 100`. -/
theorem handleAspectRatioChange_locked (s : CropToolState) (rid rid2 : String) (r : ℚ)
    (hfind : findRatioOption rid = some (rid2, some r)) :
    handleAspectRatioChange s rid =
      (if s.cropWidth / r > 100 then
        { s with selectedAspectRatioId := some rid, cropWidth := 100 * r, cropHeight := 100 }
      else
        { s with selectedAspectRatioId := some rid, cropHeight := s.cropWidth / r }) := by
  unfold handleAspectRatioChange
  rw [hfind]

/-- C6 counterexample: the claim says the final rectangle always stays within
bounds (width, height in [20,100]); switching a freeform crop of width 20 to
the 16:9 ratio makes the code set the height to `20/(16/9) = 45/4 = 11.25`,
below the lower bound 20. -/
theorem C6_bounds_counterexample :
    (handleAspectRatioChange cropNarrow ("16:9")).cropHeight = 45/4 ∧
    ¬ (20 ≤ (handleAspectRatioChange cropNarrow ("16:9")).cropHeight) := by
  have hch := handleAspectRatioChange_locked cropNarrow ("16:9") ("16:9") (16/9) rfl
  have hc : ¬ (cropNarrow.cropWidth / (16/9) > 100) := by
    norm_num [cropNarrow]
  rw [hch, if_neg hc]
  constructor
  · show cropNarrow.cropWidth / (16/9) = 45/4
    norm_num [cropNarrow]
  · show ¬ (20 ≤ cropNarrow.cropWidth / (16/9))
    norm_num [cropNarrow]

/-- C6 (amended): selecting a locked ratio recomputes the height from the
current width (`height = width / r`), and when the result would exceed 100 it
instead sets height 100 and derives `width = 100 * r`; for every starting
rectangle in the working range and every offered ratio the final rectangle
keeps x and y (so they stay in [0,50]), keeps the width within [20,100] and
caps the height at 100 — but the recomputed height can fall below 20, so the
full [20,100] bound claimed for it does not hold. -/
theorem C6_ratio_switch (s : CropToolState) (rid rid2 : String) (r : ℚ)
    (hfind : findRatioOption rid = some (rid2, some r))
    (hx1 : 0 ≤ s.cropX) (hx2 : s.cropX ≤ 50)
    (hy1 : 0 ≤ s.cropY) (hy2 : s.cropY ≤ 50)
    (hw1 : 20 ≤ s.cropWidth) (hw2 : s.cropWidth ≤ 100) :
    0 ≤ (handleAspectRatioChange s rid).cropX ∧
    (handleAspectRatioChange s rid).cropX ≤ 50 ∧
    0 ≤ (handleAspectRatioChange s rid).cropY ∧
    (handleAspectRatioChange s rid).cropY ≤ 50 ∧
    20 ≤ (handleAspectRatioChange s rid).cropWidth ∧
    (handleAspectRatioChange s rid).cropWidth ≤ 100 ∧
    (handleAspectRatioChange s rid).cropHeight ≤ 100 ∧
    (100 < s.cropWidth / r →
      (handleAspectRatioChange s rid).cropHeight = 100 ∧
      (handleAspectRatioChange s rid).cropWidth = 100 * r) ∧
    (s.cropWidth / r ≤ 100 →
      (handleAspectRatioChange s rid).cropHeight = s.cropWidth / r ∧
      (handleAspectRatioChange s rid).cropWidth = s.cropWidth) := by
  have hmem : (rid2, some r) ∈ aspectRatioOptions := List.mem_of_find?_eq_some hfind
  have hrv : r = 1 ∨ r = 16/9 ∨ r = 9/16 ∨ r = 5/4 ∨ r = 4/5 ∨ r = 4/3 ∨
      r = 3/4 ∨ r = 3/2 := by
    simp only [aspectRatioOptions, List.mem_cons, List.not_mem_nil, or_false,
      Prod.mk.injEq, Option.some.injEq] at hmem
    tauto
  have hr0 : 0 < r := by
    rcases hrv with h|h|h|h|h|h|h|h <;> rw [h] <;> norm_num
  have hr5 : 1/5 ≤ r := by
    rcases hrv with h|h|h|h|h|h|h|h <;> rw [h] <;> norm_num
  rw [handleAspectRatioChange_locked s rid rid2 r hfind]
  by_cases hc : 100 < s.cropWidth / r
  · rw [if_pos hc]
    have hwr : 100 * r < s.cropWidth := by
      rw [lt_div_iff₀ hr0] at hc
      linarith
    have h20 : (20 : ℚ) ≤ 100 * r := by linarith
    exact ⟨hx1, hx2, hy1, hy2, h20, le_of_lt (lt_of_lt_of_le hwr hw2), le_refl 100,
      fun _ => ⟨rfl, rfl⟩, fun hle => absurd hc (not_lt.mpr hle)⟩
  · rw [if_neg hc]
    exact ⟨hx1, hx2, hy1, hy2, hw1, hw2, not_lt.mp hc,
      fun hgt => absurd hgt hc, fun _ => ⟨rfl, rfl⟩⟩

/-- C6 witness: the amended bound behaviour at the concrete freeform crop of
width 20 switched to the 16:9 ratio (the direct branch, height 45/4). -/
theorem C6_ratio_switch_witness :
    0 ≤ (handleAspectRatioChange cropNarrow ("16:9")).cropX ∧
    (handleAspectRatioChange cropNarrow ("16:9")).cropX ≤ 50 ∧
    0 ≤ (handleAspectRatioChange cropNarrow ("16:9")).cropY ∧
    (handleAspectRatioChange cropNarrow ("16:9")).cropY ≤ 50 ∧
    20 ≤ (handleAspectRatioChange cropNarrow ("16:9")).cropWidth ∧
    (handleAspectRatioChange cropNarrow ("16:9")).cropWidth ≤ 100 ∧
    (handleAspectRatioChange cropNarrow ("16:9")).cropHeight ≤ 100 ∧
    (100 < cropNarrow.cropWidth / (16/9) →
      (handleAspectRatioChange cropNarrow ("16:9")).cropHeight = 100 ∧
      (handleAspectRatioChange cropNarrow ("16:9")).cropWidth = 100 * (16/9)) ∧
    (cropNarrow.cropWidth / (16/9) ≤ 100 →
      (handleAspectRatioChange cropNarrow ("16:9")).cropHeight =
        cropNarrow.cropWidth / (16/9) ∧
      (handleAspectRatioChange cropNarrow ("16:9")).cropWidth = cropNarrow.cropWidth) :=
  C6_ratio_switch cropNarrow ("16:9") ("16:9") (16/9) rfl
    (by norm_num [cropNarrow]) (by norm_num [cropNarrow])
    (by norm_num [cropNarrow]) (by norm_num [cropNarrow])
    (by norm_num [cropNarrow]) (by norm_num [cropNarrow])

/-- C7: requesting play while the video has ended or the clock is within 0.1s
of the duration is treated as an implicit restart: `handlePlay` issues the
clock-restart request before the play request and clears the ended flag; when
the play/pause effect then runs with the ended flag still set and the clock at
the end, it forces the clock to 0 with the suppression blocker raised around
the write, and no time-report is forwarded while the blocker is up — in
particular the feedback report of a forced correction to time 0 is
suppressed. -/
theorem C7_implicit_restart (videoEnded : Bool) (ct dur : ℚ)
    (h : videoEnded = true ∨ ct ≥ dur - 1/10) :
    (handlePlay videoEnded ct dur).2 = [ClockAction.restart, ClockAction.play] ∧
    (handlePlay videoEnded ct dur).1 = false ∧
    (videoEnded = true → ct ≥ dur - 1/10 →
      playResetEffect videoEnded ct dur =
        { videoEnded := false, clockWrite := some 0, playerWrite := some 0,
          blockerDuringWrites := true }) ∧
    (∀ t : ℚ, handleTimeUpdate { playerTime := t, blocker := true } = none) ∧
    (∀ s : VideoSyncState, |s.playerTime - 0| > 1/5 →
      handleTimeUpdate (videoTimeSync s 0) = none) := by
  have hcond : (videoEnded || decide (ct ≥ dur - 1/10)) = true := by
    rcases h with h | h
    · rw [h, Bool.true_or]
    · rw [decide_eq_true h, Bool.or_true]
  refine ⟨?_, ?_, ?_, ?_, ?_⟩
  · unfold handlePlay
    rw [if_pos hcond]
  · unfold handlePlay
    rw [if_pos hcond]
  · intro h1 h2
    unfold playResetEffect
    rw [h1, if_pos rfl, if_pos h2]
  · intro t
    rfl
  · intro s hs
    unfold videoTimeSync
    rw [if_pos hs]
    rfl

/-- C7 witness: the implicit restart at a concrete ended state with the clock
at the duration (`videoEnded = true`, `currentTime = duration = 10`). -/
theorem C7_implicit_restart_witness :
    (handlePlay true 10 10).2 = [ClockAction.restart, ClockAction.play] ∧
    (handlePlay true 10 10).1 = false ∧
    (true = true → (10 : ℚ) ≥ 10 - 1/10 →
      playResetEffect true 10 10 =
        { videoEnded := false, clockWrite := some 0, playerWrite := some 0,
          blockerDuringWrites := true }) ∧
    (∀ t : ℚ, handleTimeUpdate { playerTime := t, blocker := true } = none) ∧
    (∀ s : VideoSyncState, |s.playerTime - 0| > 1/5 →
      handleTimeUpdate (videoTimeSync s 0) = none) :=
  C7_implicit_restart true 10 10 (Or.inl rfl)

/-- C8: on every reconciliation pass, every session whose element id is not in
the active set is removed from the pool (the surviving pool only holds ids of
active elements) after being paused, and on unmount the pool is emptied with
every session paused unconditionally. -/
theorem C8_session_teardown (pool : List (String × AudioPlayer))
    (actives : List TimelineElement) :
    (∀ p, p ∈ (cleanupPool pool actives).1 →
      actives.any (fun a => decide (a.id = p.1)) = true) ∧
    (∀ p, p ∈ pool → actives.any (fun a => decide (a.id = p.1)) = false →
      (p.1, { p.2 with playing := false }) ∈ (cleanupPool pool actives).2) ∧
    (∀ q, q ∈ (cleanupPool pool actives).2 → q.2.playing = false) ∧
    (unmountCleanup pool).1 = [] ∧
    (∀ q, q ∈ (unmountCleanup pool).2 → q.2.playing = false) := by
  refine ⟨?_, ?_, ?_, rfl, ?_⟩
  · intro p hp
    exact (List.mem_filter.mp hp).2
  · intro p hp hgone
    refine List.mem_map.mpr ⟨p, List.mem_filter.mpr ⟨hp, ?_⟩, rfl⟩
    rw [hgone]
    rfl
  · intro q hq
    rcases List.mem_map.mp hq with ⟨p, _, hpq⟩
    rw [← hpq]
  · intro q hq
    rcases List.mem_map.mp hq with ⟨p, _, hpq⟩
    rw [← hpq]

/-- C8 witness: a pool with one stale session (id "a1") and one live session
(id "b1") against an active set containing only "b1": the stale session is
paused and removed, the live one survives, and unmount stops everything. -/
theorem C8_session_teardown_witness :
    (("a1" : String),
      ({ src := "song.mp3", currentTime := 3, volume := 1, muted := false,
         playing := false } : AudioPlayer)) ∈
      (cleanupPool
        [(("a1"), { src := "song.mp3", currentTime := 3, volume := 1, muted := false,
                    playing := true }),
         (("b1"), { src := "b.mp3", currentTime := 0, volume := 1, muted := false,
                    playing := true })]
        [{ id := "b1", type := "audio", start := 0, «end» := 9,
           content := { src := "b.mp3" } }]).2 :=
  (C8_session_teardown
    [(("a1"), { src := "song.mp3", currentTime := 3, volume := 1, muted := false,
                playing := true }),
     (("b1"), { src := "b.mp3", currentTime := 0, volume := 1, muted := false,
                playing := true })]
    [{ id := "b1", type := "audio", start := 0, «end» := 9,
       content := { src := "b.mp3" } }]).2.1
    (("a1"), { src := "song.mp3", currentTime := 3, volume := 1, muted := false,
               playing := true })
    (List.mem_cons_self _ _) (by decide)

/-- C9: evaluation of the two crop-commit paths at a selected text element.
The explicit Apply action (`handleApplyCrop`) rejects a non-video, non-image
element with a user-visible error toast and emits no `onCropApply` — but the
debounced crop-application effect still emits `onCropApply("t1", crop)` for
the very same selection, because it checks only that an element is selected,
never its type.  The code therefore contradicts its own rejection notice. -/
theorem C9_debounce_applies_to_text :
    (handleApplyCrop (some ("t1")) (some textSample) 0 0 100 100).1 = none ∧
    (handleApplyCrop (some ("t1")) (some textSample) 0 0 100 100).2 =
      some (ToastMsg.error ("Cropping is only available for video and image elements")) ∧
    debouncedCropApply (some ("t1")) 0 0 100 100 = some (("t1"), fullFrameCrop) := by
  refine ⟨?_, ?_, rfl⟩
  · rfl
  · rfl

/-- C10: pressing Cancel (or the X reset control) does not restore the
element's stored crop: for every prior tool state and every selected element
id, `handleResetCrop` returns the full-frame sliders with the ratio choice
reset to freeform — a constant result, independent of the previous state — and
immediately commits the full-frame rectangle through `onCropApply`. -/
theorem C10_reset_commits_full_frame (s : CropToolState) (id : String) :
    (handleResetCrop s (some id)).1 =
      { cropX := 0, cropY := 0, cropWidth := 100, cropHeight := 100,
        selectedAspectRatioId := some ("freeform") } ∧
    (handleResetCrop s (some id)).2 = some (id, fullFrameCrop) :=
  ⟨rfl, rfl⟩
